import Mathlib

/-!
Shallow embedding of the ProvidAI payment-escrow and coordination core.

The definitions below are translated from the repository source:
- src/shared/database/models.py            (Payment record, status enums)
- src/shared/protocols/x402.py             (X402Payment, PaymentRequest, PaymentReceipt)
- src/agents/verifier/tools/payment_tools.py   (release_payment, reject_and_refund)
- src/agents/negotiator/tools/payment_tools.py (authorize_payment)
- src/shared/protocols/a2a.py              (A2A message builders, new_thread_id)
- src/shared/protocols/hcs10.py            (TaskMessage JSON serialization)

Modelling conventions: timestamps are abstracted to naturals (each call of
datetime.utcnow() is a separate parameter); the Hedera SDK transfer executed
inside X402Payment.create_payment is abstracted into a LedgerOutcome parameter
(success with a transaction id, or an exception message); the SQLAlchemy
session is abstracted into passing the looked-up row in and returning the
committed row out; nondeterministic uuid4 message ids are parameters.
Ledger-call counts (transfers, voids) are recorded explicitly so that
invocation-count properties can be stated.
-/

namespace ProvidAI

/-- Payment status enum, identical value strings in
src/shared/database/models.py (PaymentStatus) and src/shared/protocols/x402.py. -/
inductive PaymentStatus where
  | pending
  | authorized
  | completed
  | failed
  | refunded
deriving DecidableEq, Repr

/-- The .value string of a PaymentStatus member. -/
def PaymentStatus.value : PaymentStatus → String
  | .pending => "pending"
  | .authorized => "authorized"
  | .completed => "completed"
  | .failed => "failed"
  | .refunded => "refunded"

/-- Values stored in the payments.metadata JSON column: the code stores
strings and one nested receipt object with transaction_id and timestamp
(src/agents/verifier/tools/payment_tools.py lines 62-65). -/
inductive MetaValue where
  | str (s : String)
  | receiptObj (transaction_id : String) (timestamp : Nat)
deriving DecidableEq, Repr

/-- A Python dict with string keys, insertion ordered. -/
abbrev Metadata := List (String × MetaValue)

/-- Python dict assignment d[k] = v: overwrite in place when the key is
present, append otherwise. -/
def dictSet : Metadata → String → MetaValue → Metadata
  | [], k, v => [(k, v)]
  | (k0, v0) :: rest, k, v =>
    if k0 = k then (k0, v) :: rest else (k0, v0) :: dictSet rest k v

/-- Python d.get(k, default) at a key whose stored value is a string. -/
def getStrD (m : Metadata) (k : String) (d : String) : String :=
  match m.lookup k with
  | some (.str s) => s
  | some (.receiptObj _ _) => d
  | none => d

/-- datetime.utcnow().isoformat() with time abstracted to a natural. -/
def isoformat (t : Nat) : String := toString t

/-- Payment row, from src/shared/database/models.py (class Payment).
amount is a Float column, modelled as a rational; nullable columns are
Options. -/
structure Payment where
  id : String
  task_id : String
  from_agent_id : String
  to_agent_id : String
  amount : ℚ
  currency : String
  status : PaymentStatus
  transaction_id : Option String
  authorization_id : Option String
  created_at : Nat
  completed_at : Option Nat
  metadata : Option Metadata
deriving DecidableEq, Repr

/-- x402 payment request, from src/shared/protocols/x402.py (PaymentRequest). -/
structure PaymentRequest where
  payment_id : String
  from_account : String
  to_account : String
  amount : ℚ
  currency : String := "HBAR"
  description : String := ""
deriving DecidableEq, Repr

/-- The metadata attached to a PaymentReceipt by X402Payment.create_payment:
either the receipt status of a successful transfer (the original_request echo
is omitted) or the caught exception text. -/
inductive ReceiptMeta where
  | success (receipt_status : String)
  | failure (error : String)
deriving DecidableEq, Repr

/-- x402 payment receipt, from src/shared/protocols/x402.py (PaymentReceipt). -/
structure PaymentReceipt where
  payment_id : String
  transaction_id : String
  status : PaymentStatus
  amount : ℚ
  timestamp : Nat
  metadata : ReceiptMeta
deriving DecidableEq, Repr

/-- Outcome of the Hedera transfer executed inside
X402Payment.create_payment: either the SDK returns a response with a
transaction id and a receipt status, or some step of the try block raises. -/
inductive LedgerOutcome where
  | ok (transaction_id : String) (receipt_status : String)
  | err (message : String)
deriving DecidableEq, Repr

namespace X402

/-- X402Payment.create_payment (src/shared/protocols/x402.py lines 70-124):
on success builds a COMPLETED receipt carrying the transaction id; on any
exception builds a FAILED receipt with an empty transaction id. -/
def create_payment (req : PaymentRequest) (outcome : LedgerOutcome) (now : Nat) :
    PaymentReceipt :=
  match outcome with
  | .ok txid rstatus =>
    { payment_id := req.payment_id
      transaction_id := txid
      status := .completed
      amount := req.amount
      timestamp := now
      metadata := .success rstatus }
  | .err e =>
    { payment_id := req.payment_id
      transaction_id := ""
      status := .failed
      amount := req.amount
      timestamp := now
      metadata := .failure e }

/-- X402Payment.authorize_payment (x402.py lines 126-133): a placeholder
that only fabricates the handle string; it makes no ledger call. -/
def authorize_payment (req : PaymentRequest) : String :=
  "auth_" ++ req.payment_id

/-- X402Payment.release_payment (x402.py lines 135-142): ignores the
authorization id and simply executes the payment via create_payment. -/
def release_payment (authorization_id : Option String) (req : PaymentRequest)
    (outcome : LedgerOutcome) (now : Nat) : PaymentReceipt :=
  create_payment req outcome now

end X402

/-- Result dictionary of release_payment
(src/agents/verifier/tools/payment_tools.py). -/
inductive ReleaseResult where
  | notFound (payment_id : String)
  | notAuthorized (statusValue : String)
  | failure (message : String)
  | released (payment_id transaction_id statusValue : String) (amount : ℚ)
      (currency : String)
deriving DecidableEq, Repr

/-- The observable effect of one release_payment call: the returned dict,
the committed row (none when the payment was not found), and how many times
the ledger transfer was invoked. -/
structure ReleaseOutcome where
  result : ReleaseResult
  payment : Option Payment
  transfers : Nat
deriving DecidableEq, Repr

namespace Verifier

/-- release_payment (src/agents/verifier/tools/payment_tools.py lines 14-86).
payment is the row found for payment_id (none when absent); env_account is
os.getenv HEDERA_ACCOUNT_ID; outcome abstracts the Hedera transfer; tLedger
and tComplete are the two datetime.utcnow() reads. A payment whose metadata
column is NULL raises AttributeError at payment.metadata.get, caught by the
blanket except and reported as a failure dict with nothing mutated. -/
def release_payment (payment_id : String) (paymentRow : Option Payment)
    (verification_notes env_account : String) (outcome : LedgerOutcome)
    (tLedger tComplete : Nat) : ReleaseOutcome :=
  match paymentRow with
  | none => ⟨.notFound payment_id, none, 0⟩
  | some payment =>
    if payment.status ≠ PaymentStatus.authorized then
      ⟨.notAuthorized payment.status.value, some payment, 0⟩
    else
      match payment.metadata with
      | none =>
        ⟨.failure "Failed to release payment: NoneType has no attribute get",
          some payment, 0⟩
      | some md =>
        let req : PaymentRequest :=
          { payment_id := payment_id
            from_account := env_account
            to_account := getStrD md "to_hedera_account" ""
            amount := payment.amount
            description := getStrD md "description" "" }
        let receipt := X402.release_payment payment.authorization_id req outcome tLedger
        let md1 := dictSet md "verification_notes" (.str verification_notes)
        let md2 := dictSet md1 "receipt"
          (.receiptObj receipt.transaction_id receipt.timestamp)
        let updated : Payment :=
          { payment with
            status := receipt.status
            transaction_id := some receipt.transaction_id
            completed_at := some tComplete
            metadata := some md2 }
        ⟨.released payment_id receipt.transaction_id updated.status.value
            payment.amount payment.currency,
          some updated, 1⟩

/-- Result dictionary of reject_and_refund. -/
inductive RejectResult where
  | notFound (payment_id : String)
  | refundedOk (payment_id rejection_reason : String)
deriving DecidableEq, Repr

/-- The observable effect of one reject_and_refund call; voids counts ledger
void invocations (the function makes none). -/
structure RejectOutcome where
  result : RejectResult
  payment : Option Payment
  voids : Nat
deriving DecidableEq, Repr

/-- reject_and_refund (src/agents/verifier/tools/payment_tools.py lines
89-129): for any found payment, regardless of its current status, sets the
status to REFUNDED, records rejection_reason and rejected_at in the metadata
dict (created empty when NULL), and commits; it performs no ledger call. -/
def reject_and_refund (payment_id : String) (paymentRow : Option Payment)
    (rejection_reason : String) (now : Nat) : RejectOutcome :=
  match paymentRow with
  | none => ⟨.notFound payment_id, none, 0⟩
  | some payment =>
    let md0 := payment.metadata.getD []
    let md1 := dictSet md0 "rejection_reason" (.str rejection_reason)
    let md2 := dictSet md1 "rejected_at" (.str (isoformat now))
    ⟨.refundedOk payment_id rejection_reason,
      some { payment with status := .refunded, metadata := some md2 }, 0⟩

end Verifier

/-- Result dictionary of the negotiator authorize_payment. -/
structure AuthorizeResult where
  payment_id : String
  authorization_id : String
deriving DecidableEq, Repr

namespace Negotiator

/-- authorize_payment (src/agents/negotiator/tools/payment_tools.py lines
74-123). Raises ValueError when the payment is not found and AttributeError
when the metadata column is NULL (payment.metadata.get, no surrounding
except); otherwise — with no check of the current status — stores
authorization_id = auth_ + payment_id and sets status AUTHORIZED. The x402
authorize call is the pure placeholder; no ledger hold is placed. -/
def authorize_payment (payment_id : String) (paymentRow : Option Payment)
    (env_account : String) : Except String (AuthorizeResult × Payment) :=
  match paymentRow with
  | none => .error ("ValueError: Payment " ++ payment_id ++ " not found")
  | some payment =>
    match payment.metadata with
    | none => .error "AttributeError: NoneType has no attribute get"
    | some md =>
      let req : PaymentRequest :=
        { payment_id := payment_id
          from_account := env_account
          to_account := getStrD md "to_hedera_account" ""
          amount := payment.amount
          description := getStrD md "description" "" }
      let auth_id := X402.authorize_payment req
      .ok (⟨payment_id, auth_id⟩,
        { payment with authorization_id := some auth_id, status := .authorized })

end Negotiator

namespace A2A

/-- a2a://x402-payment/1.0, from src/shared/protocols/a2a.py. -/
def A2A_PAYMENT_PROTOCOL_URI : String := "a2a://x402-payment/1.0"

/-- _serialize_amount (a2a.py lines 28-33): the canonical decimal string of
the amount; decimal formatting is abstracted to the canonical rational
rendering. -/
def serialize_amount (amount : ℚ) : String := toString amount

/-- new_thread_id (a2a.py lines 36-39). -/
def new_thread_id (task_id : String) (payment_id : String) : String :=
  "a2a:" ++ task_id ++ ":" ++ payment_id

/-- Values appearing in an A2A message body dict: strings, Python ints, and
the verifier address list. -/
inductive BodyValue where
  | str (s : String)
  | int (n : Int)
  | strList (xs : List String)
deriving DecidableEq, Repr

/-- A2AMessage dataclass (a2a.py lines 42-67); body is a Python dict. -/
structure A2AMessage where
  id : String
  type : String
  from_agent : String
  to_agent : String
  thid : String
  timestamp : String
  body : List (String × BodyValue)
  protocol : String := A2A_PAYMENT_PROTOCOL_URI
deriving DecidableEq, Repr

/-- Python `thread_id or default` on an Optional[str]: None and the empty
string are falsy. -/
def pyOrStr (threadOpt : Option String) (d : String) : String :=
  match threadOpt with
  | none => d
  | some s => if s = "" then d else s

/-- build_payment_proposal_message (a2a.py lines 70-108); the uuid4 id and
the now timestamp are parameters. -/
def build_payment_proposal_message (payment_id task_id : String) (amount : ℚ)
    (currency from_agent to_agent : String) (verifier_addresses : List String)
    (approvals_required marketplace_fee_bps verifier_fee_bps : Int)
    (thread_id : Option String) (msg_id now_iso : String) : A2AMessage :=
  let thid := pyOrStr thread_id (new_thread_id task_id payment_id)
  { id := msg_id
    type := "payment/proposal"
    from_agent := from_agent
    to_agent := to_agent
    thid := thid
    timestamp := now_iso
    body :=
      [("payment_id", .str payment_id),
       ("task_id", .str task_id),
       ("amount", .str (serialize_amount amount)),
       ("currency", .str currency),
       ("from_agent", .str from_agent),
       ("to_agent", .str to_agent),
       ("verifier_addresses", .strList verifier_addresses),
       ("approvals_required", .int approvals_required),
       ("marketplace_fee_bps", .int marketplace_fee_bps),
       ("verifier_fee_bps", .int verifier_fee_bps)] }

/-- build_payment_authorized_message (a2a.py lines 111-141). -/
def build_payment_authorized_message (payment_id task_id : String) (amount : ℚ)
    (currency from_agent to_agent transaction_id thread_id : String)
    (msg_id now_iso : String) : A2AMessage :=
  { id := msg_id
    type := "payment/authorized"
    from_agent := from_agent
    to_agent := to_agent
    thid := thread_id
    timestamp := now_iso
    body :=
      [("payment_id", .str payment_id),
       ("task_id", .str task_id),
       ("amount", .str (serialize_amount amount)),
       ("currency", .str currency),
       ("transaction_id", .str transaction_id),
       ("status", .str "authorized")] }

/-- build_payment_release_message (a2a.py lines 144-178): a total
constructor; verification_notes is appended only when truthy (neither None
nor the empty string). No thread history is consulted. -/
def build_payment_release_message (payment_id task_id : String) (amount : ℚ)
    (currency from_agent to_agent transaction_id statusStr : String)
    (verification_notes : Option String) (thread_id : String)
    (msg_id now_iso : String) : A2AMessage :=
  let base : List (String × BodyValue) :=
    [("payment_id", .str payment_id),
     ("task_id", .str task_id),
     ("amount", .str (serialize_amount amount)),
     ("currency", .str currency),
     ("transaction_id", .str transaction_id),
     ("status", .str statusStr)]
  let body :=
    match verification_notes with
    | none => base
    | some notes => if notes = "" then base else base ++ [("verification_notes", .str notes)]
  { id := msg_id
    type := "payment/released"
    from_agent := from_agent
    to_agent := to_agent
    thid := thread_id
    timestamp := now_iso
    body := body }

/-- build_payment_refund_message (a2a.py lines 181-215): a total
constructor; transaction_id is appended only when truthy. -/
def build_payment_refund_message (payment_id task_id : String) (amount : ℚ)
    (currency from_agent to_agent : String) (transaction_id : Option String)
    (statusStr rejection_reason : String) (thread_id : String)
    (msg_id now_iso : String) : A2AMessage :=
  let base : List (String × BodyValue) :=
    [("payment_id", .str payment_id),
     ("task_id", .str task_id),
     ("amount", .str (serialize_amount amount)),
     ("currency", .str currency),
     ("status", .str statusStr),
     ("rejection_reason", .str rejection_reason)]
  let body :=
    match transaction_id with
    | none => base
    | some tx => if tx = "" then base else base ++ [("transaction_id", .str tx)]
  { id := msg_id
    type := "payment/refunded"
    from_agent := from_agent
    to_agent := to_agent
    thid := thread_id
    timestamp := now_iso
    body := body }

end A2A

namespace HCS10

/-- HCS-10 message types (src/shared/protocols/hcs10.py, MessageType). -/
inductive MessageType where
  | task_created
  | task_assigned
  | task_progress
  | task_completed
  | tool_created
  | payment_initiated
  | payment_completed
deriving DecidableEq, Repr

/-- The .value string of a MessageType member. -/
def MessageType.value : MessageType → String
  | .task_created => "task_created"
  | .task_assigned => "task_assigned"
  | .task_progress => "task_progress"
  | .task_completed => "task_completed"
  | .tool_created => "tool_created"
  | .payment_initiated => "payment_initiated"
  | .payment_completed => "payment_completed"

/-- MessageType(s): the enum constructor, None-returning on an unknown
value string (Python raises ValueError there). -/
def MessageType.ofValue : String → Option MessageType
  | "task_created" => some .task_created
  | "task_assigned" => some .task_assigned
  | "task_progress" => some .task_progress
  | "task_completed" => some .task_completed
  | "tool_created" => some .tool_created
  | "payment_initiated" => some .payment_initiated
  | "payment_completed" => some .payment_completed
  | _ => none

/-- JSON values, with numbers restricted to the integers that appear in
TaskMessage fields. json.dumps followed by json.loads is modelled as the
identity on this AST. -/
inductive Jx where
  | null
  | bool (b : Bool)
  | num (n : Int)
  | str (s : String)
  | arr (xs : List Jx)
  | obj (fields : List (String × Jx))
deriving Repr

/-- TaskMessage dataclass (hcs10.py lines 24-46); payload is Dict[str, Any]
and sequence_number is Optional[int]. -/
structure TaskMessage where
  message_type : MessageType
  task_id : String
  agent_id : String
  timestamp : String
  payload : List (String × Jx)
  sequence_number : Option Int := none

/-- TaskMessage.to_json (hcs10.py lines 35-39): asdict in dataclass field
order, with message_type replaced by its value string, then json.dumps
(identity on the AST). -/
def TaskMessage.to_json (m : TaskMessage) : Jx :=
  .obj
    [("message_type", .str m.message_type.value),
     ("task_id", .str m.task_id),
     ("agent_id", .str m.agent_id),
     ("timestamp", .str m.timestamp),
     ("payload", .obj m.payload),
     ("sequence_number",
       match m.sequence_number with
       | none => .null
       | some n => .num n)]

/-- TaskMessage.from_json (hcs10.py lines 41-46): json.loads, then the
MessageType enum constructor on the value string, then cls(**data). The
parser accepts the canonical field layout that json.loads recovers from a
dumped asdict; anything else fails (Python would raise). -/
def TaskMessage.from_json (j : Jx) : Option TaskMessage :=
  match j with
  | .obj
      [("message_type", .str mt),
       ("task_id", .str task_id),
       ("agent_id", .str agent_id),
       ("timestamp", .str timestamp),
       ("payload", .obj payload),
       ("sequence_number", sn)] =>
    match MessageType.ofValue mt, sn with
    | some m, .null => some ⟨m, task_id, agent_id, timestamp, payload, none⟩
    | some m, .num n => some ⟨m, task_id, agent_id, timestamp, payload, some n⟩
    | _, _ => none
  | _ => none

end HCS10

/-- Metadata as create_payment_request writes it
(src/agents/negotiator/tools/payment_tools.py line 53). -/
def sampleMetadata : Metadata :=
  [("to_hedera_account", MetaValue.str "0.0.2"),
   ("description", MetaValue.str "analyze sales")]

/-- A payment that has already reached the terminal COMPLETED state, with
its settlement receipt stored. -/
def paymentCompletedSample : Payment :=
  { id := "pay-1"
    task_id := "task-1"
    from_agent_id := "negotiator"
    to_agent_id := "executor"
    amount := 10
    currency := "HBAR"
    status := .completed
    transaction_id := some "tx0"
    authorization_id := some "auth_pay-1"
    created_at := 0
    completed_at := some 1
    metadata := some (dictSet sampleMetadata "receipt" (.receiptObj "tx0" 1)) }

/-- A payment in the AUTHORIZED state awaiting verification. -/
def paymentAuthorizedSample : Payment :=
  { id := "pay-2"
    task_id := "task-2"
    from_agent_id := "negotiator"
    to_agent_id := "executor"
    amount := 10
    currency := "HBAR"
    status := .authorized
    transaction_id := none
    authorization_id := some "auth_pay-2"
    created_at := 0
    completed_at := none
    metadata := some sampleMetadata }

/-- A freshly created payment, still PENDING and never authorized. -/
def paymentPendingSample : Payment :=
  { id := "pay-3"
    task_id := "task-3"
    from_agent_id := "negotiator"
    to_agent_id := "executor"
    amount := 10
    currency := "HBAR"
    status := .pending
    transaction_id := none
    authorization_id := none
    created_at := 0
    completed_at := none
    metadata := some sampleMetadata }

/-- Looking up the key just written by a Python dict assignment yields the
written value. -/
theorem lookup_dictSet_self (m : Metadata) (k : String) (v : MetaValue) :
    (dictSet m k v).lookup k = some v := by
  induction m with
  | nil => simp [dictSet, List.lookup]
  | cons kv rest ih =>
    obtain ⟨k0, v0⟩ := kv
    by_cases h : k0 = k
    · simp [dictSet, h, List.lookup]
    · simp only [dictSet, if_neg h, List.lookup]
      have hk : (k == k0) = false := by
        simp [Ne.symm h]
      simp [hk, ih]

/-- A Python dict assignment leaves lookups at other keys unchanged. -/
theorem lookup_dictSet_of_ne (m : Metadata) (k kq : String) (v : MetaValue)
    (h : kq ≠ k) : (dictSet m k v).lookup kq = m.lookup kq := by
  induction m with
  | nil =>
    have hk : (kq == k) = false := by simp [h]
    simp [dictSet, List.lookup, hk]
  | cons kv rest ih =>
    obtain ⟨k0, v0⟩ := kv
    by_cases h0 : k0 = k
    · subst h0
      have hk : (kq == k0) = false := by simp [h]
      simp [dictSet, List.lookup, hk]
    · simp only [dictSet, if_neg h0, List.lookup]
      by_cases hq : kq = k0
      · simp [hq]
      · have hk : (kq == k0) = false := by simp [hq]
        simp [hk, ih]

/-- C1 counterexample: release_payment on an already-COMPLETED payment does
not return the existing settlement receipt — it returns the not-authorized
error dict, so the claim as stated is false at this input. -/
theorem C1_release_on_completed_counterexample :
    paymentCompletedSample.status = PaymentStatus.completed
    ∧ (Verifier.release_payment "pay-1" (some paymentCompletedSample) "ok"
        "0.0.1" (.ok "tx9" "SUCCESS") 3 4).result
      = ReleaseResult.notAuthorized "completed" :=
  ⟨rfl, rfl⟩

/-- C1 amended: release_payment on an already-COMPLETED payment returns the
not-authorized error, invokes no ledger transfer, and leaves the stored
payment unchanged; and over any two sequential release calls on the same
payment the ledger transfer is invoked at most once. -/
theorem C1_release_idempotent_amended :
    (∀ (p : Payment) (pid notes env : String) (o : LedgerOutcome) (t1 t2 : Nat),
      p.status = PaymentStatus.completed →
        Verifier.release_payment pid (some p) notes env o t1 t2
          = ⟨.notAuthorized "completed", some p, 0⟩)
    ∧ (∀ (pr : Option Payment) (pid1 pid2 n1 n2 e1 e2 : String)
        (o1 o2 : LedgerOutcome) (a1 b1 a2 b2 : Nat),
        (Verifier.release_payment pid1 pr n1 e1 o1 a1 b1).transfers
          + (Verifier.release_payment pid2
              (Verifier.release_payment pid1 pr n1 e1 o1 a1 b1).payment
              n2 e2 o2 a2 b2).transfers ≤ 1) := by
  constructor
  · intro p pid notes env o t1 t2 h
    simp [Verifier.release_payment, h, PaymentStatus.value]
  · intro pr pid1 pid2 n1 n2 e1 e2 o1 o2 a1 b1 a2 b2
    rcases pr with _ | p
    · simp [Verifier.release_payment]
    · by_cases hs : p.status = PaymentStatus.authorized
      · rcases hm : p.metadata with _ | md
        · simp [Verifier.release_payment, hs, hm]
        · rcases o1 with ⟨tx, rs⟩ | msg <;>
            simp [Verifier.release_payment, hs, hm, X402.release_payment,
              X402.create_payment]
      · simp [Verifier.release_payment, hs]

/-- C1 witness: the amended theorem applied to a concrete COMPLETED payment
and to a concrete pair of sequential calls. -/
theorem C1_release_idempotent_amended_witness :
    Verifier.release_payment "pay-1" (some paymentCompletedSample) "ok"
        "0.0.1" (.ok "tx9" "SUCCESS") 3 4
      = ⟨.notAuthorized "completed", some paymentCompletedSample, 0⟩
    ∧ (Verifier.release_payment "pay-2" (some paymentAuthorizedSample) "ok"
          "0.0.1" (.ok "tx9" "SUCCESS") 3 4).transfers
        + (Verifier.release_payment "pay-2"
            (Verifier.release_payment "pay-2" (some paymentAuthorizedSample)
              "ok" "0.0.1" (.ok "tx9" "SUCCESS") 3 4).payment
            "again" "0.0.1" (.ok "tx10" "SUCCESS") 5 6).transfers ≤ 1 :=
  ⟨C1_release_idempotent_amended.1 paymentCompletedSample "pay-1" "ok" "0.0.1"
      (.ok "tx9" "SUCCESS") 3 4 rfl,
    C1_release_idempotent_amended.2 (some paymentAuthorizedSample) "pay-2"
      "pay-2" "ok" "again" "0.0.1" "0.0.1" (.ok "tx9" "SUCCESS")
      (.ok "tx10" "SUCCESS") 3 4 5 6⟩

/-- C2 counterexample: reject_and_refund mutates a payment that is already
in the terminal COMPLETED state, setting its status to REFUNDED, so the
terminal-state invariant as claimed is false at this input. -/
theorem C2_terminal_mutation_counterexample :
    paymentCompletedSample.status = PaymentStatus.completed
    ∧ (Verifier.reject_and_refund "pay-1" (some paymentCompletedSample)
        "bad quality" 7).payment.map Payment.status
      = some PaymentStatus.refunded
    ∧ PaymentStatus.completed ≠ PaymentStatus.refunded :=
  ⟨rfl, rfl, by decide⟩

/-- C2 amended: once a payment is terminal (COMPLETED, FAILED or REFUNDED),
release_payment refuses to act and mutates nothing; but reject_and_refund
still sets the status to REFUNDED and authorize_payment (given a non-NULL
metadata column) still sets the status to AUTHORIZED — the terminal-state
invariant is enforced only by release. -/
theorem C2_terminal_release_only_amended :
    ∀ (p : Payment) (pid notes env reason env2 : String) (o : LedgerOutcome)
      (t1 t2 t3 : Nat) (md : Metadata),
      (p.status = PaymentStatus.completed ∨ p.status = PaymentStatus.failed
        ∨ p.status = PaymentStatus.refunded) →
      p.metadata = some md →
        Verifier.release_payment pid (some p) notes env o t1 t2
            = ⟨.notAuthorized p.status.value, some p, 0⟩
        ∧ (Verifier.reject_and_refund pid (some p) reason t3).payment.map
            Payment.status = some PaymentStatus.refunded
        ∧ ∃ res p1, Negotiator.authorize_payment pid (some p) env2
              = .ok (res, p1)
            ∧ p1.status = PaymentStatus.authorized := by
  intro p pid notes env reason env2 o t1 t2 t3 md hterm hmd
  refine ⟨?_, ?_, ?_⟩
  · rcases hterm with h | h | h <;>
      simp [Verifier.release_payment, h, PaymentStatus.value]
  · simp [Verifier.reject_and_refund]
  · have h1 : Negotiator.authorize_payment pid (some p) env2
        = .ok (⟨pid, "auth_" ++ pid⟩,
            { p with authorization_id := some ("auth_" ++ pid),
                     status := PaymentStatus.authorized }) := by
      simp [Negotiator.authorize_payment, hmd, X402.authorize_payment]
    exact ⟨_, _, h1, rfl⟩

/-- C2 witness: the amended theorem applied to the concrete COMPLETED
payment. -/
theorem C2_terminal_release_only_witness :
    Verifier.release_payment "pay-1" (some paymentCompletedSample) "ok"
        "0.0.1" (.ok "tx9" "SUCCESS") 3 4
      = ⟨.notAuthorized "completed", some paymentCompletedSample, 0⟩
    ∧ (Verifier.reject_and_refund "pay-1" (some paymentCompletedSample)
        "bad quality" 7).payment.map Payment.status
      = some PaymentStatus.refunded
    ∧ ∃ res p1, Negotiator.authorize_payment "pay-1"
          (some paymentCompletedSample) "0.0.1" = .ok (res, p1)
        ∧ p1.status = PaymentStatus.authorized :=
  C2_terminal_release_only_amended paymentCompletedSample "pay-1" "ok"
    "0.0.1" "bad quality" "0.0.1" (.ok "tx9" "SUCCESS") 3 4 7
    (dictSet sampleMetadata "receipt" (.receiptObj "tx0" 1))
    (Or.inl rfl) rfl

/-- C3 counterexample: reject_and_refund succeeds on a payment already in
the terminal COMPLETED state (the claim allows reject only from PENDING or
AUTHORIZED), and on an AUTHORIZED payment it invokes the ledger void zero
times, not exactly once. -/
theorem C3_reject_guard_counterexample :
    paymentCompletedSample.status = PaymentStatus.completed
    ∧ (Verifier.reject_and_refund "pay-1" (some paymentCompletedSample)
        "bad quality" 7).result = Verifier.RejectResult.refundedOk "pay-1" "bad quality"
    ∧ paymentAuthorizedSample.status = PaymentStatus.authorized
    ∧ (Verifier.reject_and_refund "pay-2" (some paymentAuthorizedSample)
        "bad quality" 7).voids = 0 :=
  ⟨rfl, rfl, rfl, rfl⟩

/-- C3 amended: reject_and_refund accepts a found payment in any status
(there is no PENDING/AUTHORIZED guard), never invokes the ledger void, sets
the status to REFUNDED, leaves the settlement fields (transaction_id,
authorization_id, amount) untouched, and records rejection_reason and
rejected_at in the metadata dict; a second call on the now-REFUNDED payment
again succeeds and overwrites those two metadata entries, so it is
idempotent on the status but not a strict no-op on metadata. -/
theorem C3_reject_amended :
    ∀ (p : Payment) (pid r1 r2 : String) (t1 t2 : Nat),
      (Verifier.reject_and_refund pid (some p) r1 t1).voids = 0
      ∧ (Verifier.reject_and_refund pid (some p) r1 t1).result
          = Verifier.RejectResult.refundedOk pid r1
      ∧ ∃ p1 md1,
          (Verifier.reject_and_refund pid (some p) r1 t1).payment = some p1
          ∧ p1.status = PaymentStatus.refunded
          ∧ p1.transaction_id = p.transaction_id
          ∧ p1.authorization_id = p.authorization_id
          ∧ p1.amount = p.amount
          ∧ p1.metadata = some md1
          ∧ md1.lookup "rejection_reason" = some (.str r1)
          ∧ md1.lookup "rejected_at" = some (.str (isoformat t1))
          ∧ (Verifier.reject_and_refund pid (some p1) r2 t2).result
              = Verifier.RejectResult.refundedOk pid r2
          ∧ ∃ p2 md2,
              (Verifier.reject_and_refund pid (some p1) r2 t2).payment = some p2
              ∧ p2.status = PaymentStatus.refunded
              ∧ p2.metadata = some md2
              ∧ md2.lookup "rejection_reason" = some (.str r2)
              ∧ md2.lookup "rejected_at" = some (.str (isoformat t2)) := by
  intro p pid r1 r2 t1 t2
  have hne : "rejection_reason" ≠ "rejected_at" := by decide
  refine ⟨rfl, rfl, _, _, rfl, rfl, rfl, rfl, rfl, rfl, ?_, ?_, rfl, _, _,
    rfl, rfl, rfl, ?_, ?_⟩
  · rw [lookup_dictSet_of_ne _ _ _ _ hne, lookup_dictSet_self]
  · exact lookup_dictSet_self _ _ _
  · rw [lookup_dictSet_of_ne _ _ _ _ hne, lookup_dictSet_self]
  · exact lookup_dictSet_self _ _ _

/-- C4 counterexample: authorize_payment succeeds on a payment already in
the terminal COMPLETED state and sets it back to AUTHORIZED, so the claim
that authorize fails without mutation from any non-PENDING status is false
at this input. -/
theorem C4_authorize_guard_counterexample :
    paymentCompletedSample.status = PaymentStatus.completed
    ∧ ∃ res p1, Negotiator.authorize_payment "pay-1"
          (some paymentCompletedSample) "0.0.1" = .ok (res, p1)
        ∧ p1.status = PaymentStatus.authorized :=
  ⟨rfl, _, _, rfl, rfl⟩

/-- C4 amended: authorize_payment performs no status check at all: for any
found payment whose metadata column is non-NULL, whatever its current
status, it stores authorization_id = auth_ prefixed to the payment id and
sets the status to AUTHORIZED. No ledger hold is placed (the x402 authorize
call is a pure placeholder returning the handle string), there is no retry,
and no path sets the payment to FAILED. -/
theorem C4_authorize_amended :
    ∀ (p : Payment) (pid env : String) (md : Metadata),
      p.metadata = some md →
        Negotiator.authorize_payment pid (some p) env
          = .ok (⟨pid, "auth_" ++ pid⟩,
              { p with authorization_id := some ("auth_" ++ pid),
                       status := PaymentStatus.authorized }) := by
  intro p pid env md hmd
  simp [Negotiator.authorize_payment, hmd, X402.authorize_payment]

/-- C4 witness: the amended theorem applied to the concrete COMPLETED
payment, which authorize_payment happily re-authorizes. -/
theorem C4_authorize_amended_witness :
    Negotiator.authorize_payment "pay-1" (some paymentCompletedSample) "0.0.1"
      = .ok (⟨"pay-1", "auth_" ++ "pay-1"⟩,
          { paymentCompletedSample with
              authorization_id := some ("auth_" ++ "pay-1"),
              status := PaymentStatus.authorized }) :=
  C4_authorize_amended paymentCompletedSample "pay-1" "0.0.1"
    (dictSet sampleMetadata "receipt" (.receiptObj "tx0" 1)) rfl

/-- C5: release_payment on a payment still PENDING fails with the
invalid-transition (not-authorized) error, invokes no ledger transfer, and
leaves the stored payment completely unchanged. -/
theorem C5_release_pending_fails_unchanged :
    ∀ (p : Payment) (pid notes env : String) (o : LedgerOutcome) (t1 t2 : Nat),
      p.status = PaymentStatus.pending →
        Verifier.release_payment pid (some p) notes env o t1 t2
          = ⟨.notAuthorized "pending", some p, 0⟩ := by
  intro p pid notes env o t1 t2 h
  simp [Verifier.release_payment, h, PaymentStatus.value]

/-- C5 witness: the theorem applied to the concrete PENDING payment. -/
theorem C5_release_pending_witness :
    Verifier.release_payment "pay-3" (some paymentPendingSample) "ok" "0.0.1"
        (.ok "tx9" "SUCCESS") 3 4
      = ⟨.notAuthorized "pending", some paymentPendingSample, 0⟩ :=
  C5_release_pending_fails_unchanged paymentPendingSample "pay-3" "ok"
    "0.0.1" (.ok "tx9" "SUCCESS") 3 4 rfl

/-- C7 counterexample: a payment/released entry is constructed for a fresh
thread that contains no authorized entry, and the construction succeeds
unconditionally — there is no MissingPredecessor rejection anywhere in the
code, so the causal-chain claim is false at this input. -/
theorem C7_release_message_counterexample :
    (A2A.build_payment_release_message "pay-9" "task-9" 10 "HBAR" "verifier"
        "executor" "tx1" "completed" none
        (A2A.new_thread_id "task-9" "pay-9") "msg-1" "7").type
      = "payment/released" :=
  rfl

/-- C7 amended: the code has no appendToThread operation and enforces no
causal chain: build_payment_release_message and build_payment_refund_message
are total constructors that, for any arguments and any thread_id, produce a
released (resp. refunded) entry carrying that thread_id verbatim, without
consulting any thread history and with no error path. -/
theorem C7_builders_unconditional_amended :
    ∀ (payment_id task_id : String) (amount : ℚ)
      (currency from_agent to_agent transaction_id statusStr : String)
      (verification_notes : Option String) (transaction_id2 : Option String)
      (rejection_reason thread_id msg_id now_iso : String),
      (A2A.build_payment_release_message payment_id task_id amount currency
          from_agent to_agent transaction_id statusStr verification_notes
          thread_id msg_id now_iso).type = "payment/released"
      ∧ (A2A.build_payment_release_message payment_id task_id amount currency
          from_agent to_agent transaction_id statusStr verification_notes
          thread_id msg_id now_iso).thid = thread_id
      ∧ (A2A.build_payment_refund_message payment_id task_id amount currency
          from_agent to_agent transaction_id2 statusStr rejection_reason
          thread_id msg_id now_iso).type = "payment/refunded"
      ∧ (A2A.build_payment_refund_message payment_id task_id amount currency
          from_agent to_agent transaction_id2 statusStr rejection_reason
          thread_id msg_id now_iso).thid = thread_id := by
  intro payment_id task_id amount currency from_agent to_agent transaction_id
    statusStr verification_notes transaction_id2 rejection_reason thread_id
    msg_id now_iso
  exact ⟨rfl, rfl, rfl, rfl⟩

/-- C8: new_thread_id is the pure deterministic function sending
(task_id, payment_id) to the stable string a2a:task_id:payment_id — equal
inputs give equal thread ids with no lookup — and a proposal message built
without an explicit thread_id carries exactly new_thread_id task_id
payment_id. -/
theorem C8_thread_id_deterministic :
    (∀ (task_id payment_id : String),
      A2A.new_thread_id task_id payment_id
        = "a2a:" ++ task_id ++ ":" ++ payment_id)
    ∧ (∀ (task1 task2 pay1 pay2 : String), task1 = task2 → pay1 = pay2 →
        A2A.new_thread_id task1 pay1 = A2A.new_thread_id task2 pay2)
    ∧ (∀ (payment_id task_id : String) (amount : ℚ)
        (currency from_agent to_agent : String)
        (verifier_addresses : List String)
        (approvals_required marketplace_fee_bps verifier_fee_bps : Int)
        (msg_id now_iso : String),
        (A2A.build_payment_proposal_message payment_id task_id amount
            currency from_agent to_agent verifier_addresses
            approvals_required marketplace_fee_bps verifier_fee_bps none
            msg_id now_iso).thid
          = A2A.new_thread_id task_id payment_id) := by
  refine ⟨fun _ _ => rfl, ?_, fun _ _ _ _ _ _ _ _ _ _ _ _ => rfl⟩
  intro task1 task2 pay1 pay2 h1 h2
  rw [h1, h2]

/-- C8 witness: the determinism conjunct applied at a concrete pair of equal
inputs, evaluating the thread id. -/
theorem C8_thread_id_deterministic_witness :
    A2A.new_thread_id "task-1" "pay-1" = A2A.new_thread_id "task-1" "pay-1"
    ∧ A2A.new_thread_id "task-1" "pay-1" = "a2a:" ++ "task-1" ++ ":" ++ "pay-1" :=
  ⟨C8_thread_id_deterministic.2.1 "task-1" "task-1" "pay-1" "pay-1" rfl rfl,
    C8_thread_id_deterministic.1 "task-1" "pay-1"⟩

/-- C9: when the ledger transfer raises during release of an AUTHORIZED
payment (with a non-NULL metadata column), release_payment copies the FAILED
receipt status onto the payment, stores the empty-string transaction_id from
the failure receipt, and still sets completed_at — so an AUTHORIZED payment
reaches the terminal FAILED state through release. -/
theorem C9_release_transfer_failure :
    ∀ (p : Payment) (pid notes env emsg : String) (md : Metadata) (t1 t2 : Nat),
      p.status = PaymentStatus.authorized →
      p.metadata = some md →
        ∃ p1,
          (Verifier.release_payment pid (some p) notes env (.err emsg) t1 t2).payment
            = some p1
          ∧ p1.status = PaymentStatus.failed
          ∧ p1.transaction_id = some ""
          ∧ p1.completed_at = some t2
          ∧ (Verifier.release_payment pid (some p) notes env (.err emsg) t1 t2).transfers
            = 1 := by
  intro p pid notes env emsg md t1 t2 hs hmd
  have h1 : Verifier.release_payment pid (some p) notes env (.err emsg) t1 t2
      = ⟨.released pid "" "failed" p.amount p.currency,
          some { p with
            status := PaymentStatus.failed
            transaction_id := some ""
            completed_at := some t2
            metadata := some (dictSet
              (dictSet md "verification_notes" (.str notes))
              "receipt" (.receiptObj "" t1)) }, 1⟩ := by
    simp [Verifier.release_payment, hs, hmd, X402.release_payment,
      X402.create_payment, PaymentStatus.value]
  rw [h1]
  exact ⟨_, rfl, rfl, rfl, rfl, rfl⟩

/-- C9 witness: the theorem applied to the concrete AUTHORIZED payment with
a failing transfer. -/
theorem C9_release_transfer_failure_witness :
    ∃ p1,
      (Verifier.release_payment "pay-2" (some paymentAuthorizedSample) "ok"
          "0.0.1" (.err "timeout") 3 4).payment = some p1
      ∧ p1.status = PaymentStatus.failed
      ∧ p1.transaction_id = some ""
      ∧ p1.completed_at = some 4
      ∧ (Verifier.release_payment "pay-2" (some paymentAuthorizedSample) "ok"
          "0.0.1" (.err "timeout") 3 4).transfers = 1 :=
  C9_release_transfer_failure paymentAuthorizedSample "pay-2" "ok" "0.0.1"
    "timeout" sampleMetadata 3 4 rfl rfl

/-- C10: TaskMessage JSON serialization round-trips: for every TaskMessage —
any message_type, task_id, agent_id, timestamp, payload dict, and optional
sequence_number — from_json of to_json returns exactly the original
message. -/
theorem C10_task_message_roundtrip :
    ∀ m : HCS10.TaskMessage,
      HCS10.TaskMessage.from_json (HCS10.TaskMessage.to_json m) = some m := by
  intro m
  obtain ⟨mt, task_id, agent_id, timestamp, payload, sn⟩ := m
  cases sn <;> cases mt <;> rfl

end ProvidAI
